import Mathlib

/-
  Verification model of the edgechain esp32-msingi firmware.

  The development shallowly embeds the protocol core of the firmware:
    - the RYLR896 receive-line parser (src/lora_comm.cpp, LoRaComm::receive),
    - the BRACE enrollment client (src/brace_client.cpp),
    - the nullifier derivation (src/secure_element.cpp, computeNullifier),
    - the telemetry packet construction (src/main.cpp, collectAndTransmitData,
      include/sensors.h, DataPacket), and
    - the main control loop (src/main.cpp, loop / handleIncomingMessage).

  Bytes are modelled as Nat values below 256; C strings as List Char. Machine
  integer conversions are explicit (mod 2^w). External collaborators (the
  ATECC608B secure element primitives, the radio acknowledgment, the sensors)
  are modelled as per-call outcomes in an Env record: their internals are
  out of scope, only their success/failure and returned bytes matter to the
  embedded control flow.
-/

namespace Msingi

/-! ### C parsing primitives used by lora_comm.cpp -/

/-- Characters accepted by C isspace, as skipped by strtol and atoi. -/
def isSpaceChar (c : Char) : Bool :=
  c == ' ' || c == '\t' || c == '\n' || c == '\r' || c == Char.ofNat 11 || c == Char.ofNat 12

/-- Value of a hexadecimal digit character, none for a non-digit. -/
def hexDigitVal (c : Char) : Option Nat :=
  if '0' ≤ c ∧ c ≤ '9' then some (c.toNat - 48)
  else if 'A' ≤ c ∧ c ≤ 'F' then some (c.toNat - 55)
  else if 'a' ≤ c ∧ c ≤ 'f' then some (c.toNat - 87)
  else none

/-- Value of a decimal digit character, none for a non-digit. -/
def decDigitVal (c : Char) : Option Nat :=
  if '0' ≤ c ∧ c ≤ '9' then some (c.toNat - 48) else none

/-- Fold over the leading digits of a numeral, stopping at the first
non-digit, as the digit loops of strtol and atoi do. -/
def digitsFold (digitVal : Char → Option Nat) (base : Nat) : List Char → Nat → Nat
  | [], acc => acc
  | c :: cs, acc =>
    match digitVal c with
    | some d => digitsFold digitVal base cs (acc * base + d)
    | none => acc

/-- C strtol/atoi shape: skip leading whitespace, read an optional sign, then
fold the leading digits; a string with no digits parses as 0. -/
def strtolGen (digitVal : Char → Option Nat) (base : Nat) (s : List Char) : Int :=
  match s.dropWhile isSpaceChar with
  | '-' :: rest => - (digitsFold digitVal base rest 0 : Int)
  | '+' :: rest => (digitsFold digitVal base rest 0 : Int)
  | s1 => (digitsFold digitVal base s1 0 : Int)

/-- C atoi. -/
def atoi (s : List Char) : Int := strtolGen decDigitVal 10 s

/-- C strtol with base 16 (a "0x" prefix cannot occur inside the two-character
slices this firmware parses, so it is not modelled). -/
def strtol16 (s : List Char) : Int := strtolGen hexDigitVal 16 s

/-- Conversion of a C int value to size_t (64-bit unsigned on the host of the
loop bound arithmetic; the firmware only ever produces small non-negative
lengths here). -/
def toSizeT (i : Int) : Nat := (i % ((2 : Int) ^ 64)).toNat

/-- Conversion of a C long value to uint8_t: reduction mod 256. -/
def toUInt8Nat (i : Int) : Nat := (i % (256 : Int)).toNat

/-! ### LoRaComm::receive (src/lora_comm.cpp lines 100-146) -/

/-- Contents of the C string `char hex[3] = { c1, c2, 0 }`: the characters up
to the first NUL terminator. -/
def cString2 (c1 c2 : Char) : List Char :=
  if c1 = Char.ofNat 0 then []
  else if c2 = Char.ofNat 0 then [c1]
  else [c1, c2]

/-- Character read at index i of the NUL-terminated data token produced by
strtok. Reading at the token's length yields the terminator strtok wrote over
the following comma; the model also returns NUL past that point (the C buffer
would hold later frame text there, a region no stated theorem reaches). -/
def tokChar (t : List Char) (i : Nat) : Char := t.getD i (Char.ofNat 0)

/-- Hex-decoding loop of LoRaComm::receive (lines 132-136):
`for (i = 0; i < dataLen && outLen < maxLen; i += 2)` emitting
`(uint8_t) strtol(hex, nullptr, 16)` of the two-character slice at i.
The fuel argument only bounds the recursion; dataLen + 1 steps always
suffice since i advances by 2 from 0. -/
def hexDecodeLoop (t : List Char) (dataLen maxLen : Nat) : Nat → Nat → Nat → List Nat
  | 0, _, _ => []
  | fuel + 1, i, outLen =>
    if i < dataLen ∧ outLen < maxLen then
      toUInt8Nat (strtol16 (cString2 (tokChar t i) (tokChar t (i + 1)))) ::
        hexDecodeLoop t dataLen maxLen fuel (i + 2) (outLen + 1)
    else []

/-- Entry to the hex-decoding loop with i = 0 and outLen = 0. -/
def hexDecode (t : List Char) (dataLen maxLen : Nat) : List Nat :=
  hexDecodeLoop t dataLen maxLen (dataLen + 1) 0 0

/-- Split a character list at commas (every comma is a separator). -/
def splitCommaAux : List Char → List Char → List (List Char)
  | [], acc => [acc.reverse]
  | c :: cs, acc =>
    if c = ',' then acc.reverse :: splitCommaAux cs []
    else splitCommaAux cs (c :: acc)

/-- Successive strtok(",") results on a buffer: the maximal nonempty runs of
non-comma characters, in order. -/
def strtokAll (s : List Char) : List (List Char) :=
  (splitCommaAux s []).filter (fun t => !t.isEmpty)

/-- Result of LoRaComm::receive: the payload bytes written to the caller's
buffer, and the driver's last-observed RSSI and SNR after the call. -/
structure RecvOut where
  payload : List Nat
  rssi : Int
  snr : Int
deriving DecidableEq

/-- LoRaComm::receive (src/lora_comm.cpp lines 100-146), applied to the raw
line captured from the UART (the timeout-bounded read loop of lines 104-115 is
abstracted as the line it yields) with the caller's buffer capacity maxLen and
the driver's current RSSI/SNR state. Parsing follows the source: a strncmp
prefix check for "+RCV=", strtok fields for address, length and hex data
(returning zero bytes when any of the three is missing), the hex-decoding loop
driven by the length field, then atoi of the RSSI and SNR fields when present. -/
def loraReceive (raw : List Char) (maxLen : Nat) (rssi0 snr0 : Int) : RecvOut :=
  if ("+RCV=".toList).isPrefixOf raw then
    match strtokAll (raw.drop 5) with
    | _addr :: lenTok :: dataTok :: rest =>
      let dataLen := toSizeT (atoi lenTok)
      let payload := hexDecode dataTok dataLen maxLen
      match rest with
      | [] => ⟨payload, rssi0, snr0⟩
      | [rTok] => ⟨payload, atoi rTok, snr0⟩
      | rTok :: sTok :: _ => ⟨payload, atoi rTok, atoi sTok⟩
    | _ => ⟨[], rssi0, snr0⟩
  else ⟨[], rssi0, snr0⟩

/-- Payload-size acceptance of LoRaComm::transmit (line 75): a payload longer
than 240 bytes is rejected before any command is issued. -/
def transmitAccepts (data : List Nat) : Bool := data.length ≤ 240

/-! ### Domain tags (include/config.h) and hashing preimages -/

/-- COMMITMENT_DOMAIN from config.h. -/
def commitmentDomain : String := "msingi:commitment:v1"

/-- NULLIFIER_DOMAIN from config.h. -/
def nullifierDomain : String := "msingi:nullifier:v1"

/-- ASCII bytes of a string constant. -/
def bytesOfString (s : String) : List Nat := s.toList.map Char.toNat

/-- The first 32 preimage bytes built by BraceClient::computeCommitment
(lines 105-106): memset to zero then memcpy of the strlen(domain) tag bytes,
i.e. the tag zero-padded to 32 bytes. -/
def domainPad32 (tag : String) : List Nat :=
  bytesOfString tag ++ List.replicate (32 - (bytesOfString tag).length) 0

/-- The 128-byte SHA-256 preimage assembled by BraceClient::computeCommitment
(lines 101-112): padded domain tag, then the 64 public-key bytes, then the 32
blinding-factor bytes (the C buffers fix those lengths by type). -/
def commitmentPreimage (pk r : List Nat) : List Nat :=
  domainPad32 commitmentDomain ++ pk ++ r

/-! ### External collaborator outcomes -/

/-- Per-call outcomes of the external collaborators reached during one
operation: the ATECC608B primitives (random, public key reads, SHA-256, MAC,
signing) and the radio acknowledgment of a transmit. Each fallible primitive
is an Option; the hash-like primitives are functions of the exact bytes the
firmware passes them. -/
structure Env where
  randomBytes : Option (List Nat)
  devicePk : Option (List Nat)
  slot1Pk : Option (List Nat)
  sha256 : List Nat → Option (List Nat)
  mac : List Nat → Option (List Nat)
  signBytes : List Nat → Option (List Nat)
  transmitOk : Bool

/-! ### SecureElement::computeNullifier (src/secure_element.cpp lines 121-152) -/

/-- The message handed to atecc.macData: the NULLIFIER_DOMAIN tag bytes
followed by the four big-endian epoch bytes written at offsets domainLen..
domainLen+3; exactly domainLen + 4 bytes are MACed (the zeroed remainder of
the 64-byte buffer is not passed). The byte extractions mirror the source:
`(epoch >> k) & 0xFF`. -/
def nullifierMessage (epoch : Nat) : List Nat :=
  bytesOfString nullifierDomain ++
    [(epoch >>> 24) &&& 255, (epoch >>> 16) &&& 255, (epoch >>> 8) &&& 255, epoch &&& 255]

/-- SecureElement::computeNullifier: MAC of the domain-tagged epoch message
under the device key held by the secure element. -/
def computeNullifier (env : Env) (epoch : Nat) : Option (List Nat) :=
  env.mac (nullifierMessage epoch)

/-- Big-endian 4-byte encoding of a 32-bit value, as the spec words it. -/
def be32 (e : Nat) : List Nat :=
  [e / 2 ^ 24 % 256, e / 2 ^ 16 % 256, e / 2 ^ 8 % 256, e % 256]

/-! ### DataPacket (include/sensors.h lines 25-33) -/

/-- Wire record of a telemetry report. Field byte-widths on the ESP32-S3
(ILP32) target: commitment 32, temperature/humidity/soilMoisture 4 each
(IEEE-754 float images in platform byte order), timestamp 4 (uint32_t image),
nullifier 32, signature 64. Every field offset (0, 32, 36, 40, 44, 48, 80) is
already 4-byte aligned, so the struct has no padding. -/
structure DataPacket where
  commitment : List Nat
  temperature : List Nat
  humidity : List Nat
  soilMoisture : List Nat
  timestamp : List Nat
  nullifier : List Nat
  signature : List Nat
deriving DecidableEq

/-- sizeof(DataPacket) = 32 + 4 + 4 + 4 + 4 + 32 + 64 = 144 (no padding). -/
def sizeofDataPacket : Nat := 32 + 4 + 4 + 4 + 4 + 32 + 64

/-- In-memory byte image of a DataPacket: the fields in declaration order with
no padding between them. -/
def packetBytes (p : DataPacket) : List Nat :=
  p.commitment ++ p.temperature ++ p.humidity ++ p.soilMoisture ++
    p.timestamp ++ p.nullifier ++ p.signature

/-- Byte images of the three float sensor readings used by a telemetry cycle
(IEEE-754 single-precision images, 4 bytes each, in platform byte order; the
numeric float semantics are outside the embedded control flow). -/
structure SensorBytes where
  temp : List Nat
  hum : List Nat
  soil : List Nat
deriving DecidableEq

/-! ### BraceClient (src/brace_client.cpp) -/

/-- State of the BRACE client object: the two collaborator pointers (modelled
as set/unset), the _registered flag, and the stored commitment and blinding
factor buffers. The global instance is zero-initialized, so both buffers start
as 32 zero bytes. -/
structure BraceState where
  seSet : Bool
  loraSet : Bool
  registered : Bool
  commitment : List Nat
  blindingFactor : List Nat
deriving DecidableEq

/-- BraceClient::computeCommitment (lines 92-128): read the device public key
(failure aborts), hash the 128-byte preimage over the stored blinding factor
(failure aborts), store the digest as the commitment. -/
def computeCommitmentStep (env : Env) (st : BraceState) : Option BraceState :=
  match env.devicePk with
  | none => none
  | some pk =>
    match env.sha256 (commitmentPreimage pk st.blindingFactor) with
    | none => none
    | some c => some { st with commitment := c }

/-- BraceClient::isRegistered (line 33). -/
def isRegistered (st : BraceState) : Bool := st.registered

/-- BraceClient::getCommitment (lines 61-65): fails (copying nothing) unless
_registered is set; otherwise yields the stored commitment. -/
def getCommitment (st : BraceState) : Option (List Nat) :=
  if st.registered then some st.commitment else none

/-- BraceClient::registerDevice (lines 37-59): null-pointer check, generate a
fresh blinding factor (failure aborts), recompute the commitment (failure
aborts), then send the 33-byte registration message 0x00 followed by the
commitment. The returned triple is (result, new state, payloads handed to
LoRaComm::transmit); the message is handed to the radio whether or not the
radio acknowledges (transmitOk is the acknowledgment outcome and the call's
result). -/
def registerDevice (env : Env) (st : BraceState) : Bool × BraceState × List (List Nat) :=
  if st.seSet ∧ st.loraSet then
    match env.randomBytes with
    | none => (false, st, [])
    | some r =>
      match computeCommitmentStep env { st with blindingFactor := r } with
      | none => (false, { st with blindingFactor := r }, [])
      | some st2 => (env.transmitOk, st2, [0 :: st2.commitment])
  else (false, st, [])

/-- BraceClient::begin (lines 14-31): record the collaborators, clear
_registered, then, if the blinding-factor slot is readable (a stored factor is
recoverable) and the commitment recomputes, start in the registered state. -/
def braceBegin (env : Env) : BraceState :=
  match env.slot1Pk with
  | none => ⟨true, true, false, List.replicate 32 0, List.replicate 32 0⟩
  | some _ =>
    match computeCommitmentStep env ⟨true, true, false, List.replicate 32 0, List.replicate 32 0⟩ with
    | some st1 => { st1 with registered := true }
    | none => ⟨true, true, false, List.replicate 32 0, List.replicate 32 0⟩

/-! ### main.cpp control state and telemetry cycle -/

/-- Device-controller state from main.cpp: the BRACE client object, main's own
deviceRegistered flag, the held epoch, the commitmentBytes buffer, and the
LoRa driver's last-observed RSSI/SNR. -/
structure SysState where
  brace : BraceState
  deviceRegistered : Bool
  currentEpoch : Nat
  commitmentBytes : List Nat
  rssi : Int
  snr : Int
deriving DecidableEq

/-- The uint32_t value assigned by main.cpp lines 169-170:
`(buffer[1] << 24) | (buffer[2] << 16) | (buffer[3] << 8) | buffer[4]`,
truncated to 32 bits by the assignment. -/
def epochOfBytes (b1 b2 b3 b4 : Nat) : Nat :=
  ((((b1 <<< 24) ||| (b2 <<< 16)) ||| (b3 <<< 8)) ||| b4) % 2 ^ 32

/-- The discriminant switch of handleIncomingMessage (main.cpp lines 157-182)
applied to a decoded payload: an empty payload is ignored; 0x01 sets main's
deviceRegistered flag; 0x02 with at least four following bytes replaces the
held epoch; 0x02 with fewer bytes, 0x03, and unknown types change nothing. -/
def dispatchControl (payload : List Nat) (st : SysState) : SysState :=
  match payload with
  | [] => st
  | t :: rest =>
    if t = 1 then { st with deviceRegistered := true }
    else if t = 2 then
      match rest with
      | b1 :: b2 :: b3 :: b4 :: _ => { st with currentEpoch := epochOfBytes b1 b2 b3 b4 }
      | _ => st
    else st

/-- handleIncomingMessage (main.cpp lines 153-183): receive into a 256-byte
buffer (updating the driver's RSSI/SNR state), then dispatch on the first
payload byte. -/
def handleIncomingMessage (raw : List Char) (st : SysState) : SysState :=
  let r := loraReceive raw 256 st.rssi st.snr
  dispatchControl r.payload { st with rssi := r.rssi, snr := r.snr }

/-- attemptRegistration (main.cpp lines 188-203): call registerDevice; on
success copy the commitment into commitmentBytes via getCommitment (which
copies nothing when it fails, leaving the buffer as it was — its result is
ignored). Returns the new state and the payloads handed to the radio. -/
def attemptRegistration (env : Env) (st : SysState) : SysState × List (List Nat) :=
  let res := registerDevice env st.brace
  let st1 := { st with brace := res.2.1 }
  if res.1 then
    match getCommitment res.2.1 with
    | some c => ({ st1 with commitmentBytes := c }, res.2.2)
    | none => (st1, res.2.2)
  else (st1, res.2.2)

/-- collectAndTransmitData (main.cpp lines 208-253): compute the nullifier for
the held epoch (failure aborts the cycle), fill every DataPacket field but the
signature (the signature bytes are whatever the uninitialized stack memory
held, the garbage argument), sign the first sizeof(DataPacket) - 64 bytes of
the struct image (failure aborts the cycle), store the signature, and hand the
whole 144-byte struct image to LoRaComm::transmit. The result is the payload
handed to transmit, or none when the cycle aborts before any transmit call.
Sensor readings are used as acquired, valid or not. -/
def collectAndTransmitData (env : Env) (commitmentBytes : List Nat) (epoch : Nat)
    (sd : SensorBytes) (now garbage : List Nat) : Option (List Nat) :=
  match computeNullifier env epoch with
  | none => none
  | some nul =>
    let p0 : DataPacket := ⟨commitmentBytes, sd.temp, sd.hum, sd.soil, now, nul, garbage⟩
    match env.signBytes ((packetBytes p0).take (sizeofDataPacket - 64)) with
    | none => none
    | some sig => some (packetBytes { p0 with signature := sig })

/-- Which scheduled branch a loop iteration ran. -/
inductive BranchTaken
  | enroll
  | telemetry
deriving DecidableEq

/-- Inputs consumed by one iteration of loop(): the collaborator outcomes, the
pending raw UART line when loraComm.available() is true, whether the sensor
interval has elapsed (or no cycle has run yet), the sensor byte images, the
millis() image for the timestamp field, and the uninitialized bytes of the
packet's signature field. -/
structure IterInput where
  env : Env
  inbound : Option (List Char)
  due : Bool
  sd : SensorBytes
  now : List Nat
  garbage : List Nat

/-- One iteration of loop() (main.cpp lines 125-148): first, a pending inbound
frame is received and dispatched; then, if the schedule fired, exactly one of
attemptRegistration (when deviceRegistered is still false) or
collectAndTransmitData runs, reading the state the inbound handler left.
Returns the new state, which branch (if any) ran, and the transmitted
payloads. -/
def loopIter (inp : IterInput) (st : SysState) : SysState × Option BranchTaken × List (List Nat) :=
  let st1 :=
    match inp.inbound with
    | some raw => handleIncomingMessage raw st
    | none => st
  if inp.due then
    if st1.deviceRegistered then
      match collectAndTransmitData inp.env st1.commitmentBytes st1.currentEpoch
          inp.sd inp.now inp.garbage with
      | some payload => (st1, some BranchTaken.telemetry, [payload])
      | none => (st1, some BranchTaken.telemetry, [])
    else
      let r := attemptRegistration inp.env st1
      (r.1, some BranchTaken.enroll, r.2)
  else (st1, none, [])

/-- State after setup() (main.cpp lines 100-115): braceClient.begin runs, then
deviceRegistered is read from isRegistered and, when registered, the
commitment is copied into commitmentBytes (a zero-initialized global which
getCommitment leaves untouched on failure). Epoch starts at 0. -/
def sysInit (env : Env) : SysState :=
  let br := braceBegin env
  let comm :=
    match getCommitment br with
    | some c => c
    | none => List.replicate 32 0
  ⟨br, br.registered, 0, comm, 0, 0⟩

/-! ### Concrete collaborator outcomes and states used in witnesses -/

/-- An all-succeeding set of collaborator outcomes with no stored blinding
factor, used to exercise concrete runs. -/
def envAllOk : Env :=
  { randomBytes := some (List.replicate 32 5)
    devicePk := some (List.replicate 64 2)
    slot1Pk := none
    sha256 := fun _ => some (List.replicate 32 7)
    mac := fun _ => some (List.replicate 32 3)
    signBytes := fun _ => some (List.replicate 64 4)
    transmitOk := true }

/-- envAllOk with a failing signer. -/
def envSignFail : Env := { envAllOk with signBytes := fun _ => none }

/-- A registered BRACE client state with both collaborators set. -/
def braceStRegistered : BraceState :=
  ⟨true, true, true, List.replicate 32 9, List.replicate 32 8⟩

/-- All-zero sensor byte images. -/
def sdZero : SensorBytes := ⟨List.replicate 4 0, List.replicate 4 0, List.replicate 4 0⟩

/-- A system state holding epoch 100 with registration still pending. -/
def stEpoch100 : SysState :=
  ⟨⟨true, true, false, List.replicate 32 0, List.replicate 32 0⟩, false, 100,
    List.replicate 32 0, 0, 0⟩

/-- A loop input with a registration-ack frame pending and the schedule due. -/
def iterAck : IterInput :=
  ⟨envAllOk, some ("+RCV=1,2,01,-40,9".toList), true, sdZero, List.replicate 4 0,
    List.replicate 64 6⟩

/-- The payload transmitted by the concrete telemetry run used in witnesses:
commitment of 1-bytes, zero sensor and timestamp images, the MAC output of
envAllOk as nullifier and its signature output. -/
def payloadW : List Nat :=
  List.replicate 32 1 ++ List.replicate 4 0 ++ List.replicate 4 0 ++ List.replicate 4 0 ++
    List.replicate 4 0 ++ List.replicate 32 3 ++ List.replicate 64 4

/-! ### Bitwise bridge lemmas -/

/-- Oring a shifted-in high part onto a low part below the shift amount is
addition. -/
theorem lor_mul_pow_eq_add (a k b : Nat) (hb : b < 2 ^ k) :
    (a * 2 ^ k) ||| b = a * 2 ^ k + b := by
  apply Nat.eq_of_testBit_eq
  intro j
  rw [Nat.testBit_lor, Nat.mul_comm a (2 ^ k), Nat.testBit_mul_pow_two_add a hb j]
  nth_rewrite 1 [show 2 ^ k * a = 2 ^ k * a + 0 from rfl]
  rw [Nat.testBit_mul_pow_two_add a (Nat.two_pow_pos k) j]
  by_cases h : j < k
  · simp [h]
  · have hble : b < 2 ^ j :=
      lt_of_lt_of_le hb (Nat.pow_le_pow_right (by norm_num) (Nat.le_of_not_lt h))
    simp [h, Nat.testBit_eq_false_of_lt hble]

/-- Masking with 255 is reduction mod 256. -/
theorem and_255_eq_mod (n : Nat) : n &&& 255 = n % 256 := by
  have h := Nat.and_pow_two_sub_one_eq_mod n 8
  norm_num at h
  exact h

/-- The byte extraction (e >> k) & 0xFF equals e / 2^k % 256. -/
theorem shiftRight_and_255 (e k : Nat) : (e >>> k) &&& 255 = e / 2 ^ k % 256 := by
  rw [and_255_eq_mod, Nat.shiftRight_eq_div_pow]

/-- The MAC message of computeNullifier is the domain tag followed by the
big-endian epoch encoding. -/
theorem nullifierMessage_eq_be32 (e : Nat) :
    nullifierMessage e = bytesOfString nullifierDomain ++ be32 e := by
  unfold nullifierMessage be32
  rw [shiftRight_and_255, shiftRight_and_255, shiftRight_and_255, and_255_eq_mod]

/-- The shift-or assembly of the four epoch-update bytes is their big-endian
value. -/
theorem epochOfBytes_eq_be (b1 b2 b3 b4 : Nat)
    (h1 : b1 < 256) (h2 : b2 < 256) (h3 : b3 < 256) (h4 : b4 < 256) :
    epochOfBytes b1 b2 b3 b4 = b1 * 2 ^ 24 + b2 * 2 ^ 16 + b3 * 2 ^ 8 + b4 := by
  unfold epochOfBytes
  rw [Nat.shiftLeft_eq, Nat.shiftLeft_eq, Nat.shiftLeft_eq]
  have e1 : b1 * 2 ^ 24 ||| b2 * 2 ^ 16 = (b1 * 2 ^ 8 + b2) * 2 ^ 16 := by
    rw [lor_mul_pow_eq_add b1 24 (b2 * 2 ^ 16) (by norm_num; omega)]
    ring
  rw [e1]
  have e2 : (b1 * 2 ^ 8 + b2) * 2 ^ 16 ||| b3 * 2 ^ 8 =
      ((b1 * 2 ^ 8 + b2) * 2 ^ 8 + b3) * 2 ^ 8 := by
    rw [lor_mul_pow_eq_add (b1 * 2 ^ 8 + b2) 16 (b3 * 2 ^ 8) (by norm_num; omega)]
    ring
  rw [e2]
  rw [lor_mul_pow_eq_add ((b1 * 2 ^ 8 + b2) * 2 ^ 8 + b3) 8 b4 (by norm_num; omega)]
  rw [Nat.mod_eq_of_lt (by norm_num; omega)]
  ring

/-! ### Packet-image slicing lemmas -/

/-- Length of the packet byte image under the C field widths. -/
theorem packetBytes_length (p : DataPacket)
    (hc : p.commitment.length = 32) (ht : p.temperature.length = 4)
    (hh : p.humidity.length = 4) (hs : p.soilMoisture.length = 4)
    (hts : p.timestamp.length = 4) (hn : p.nullifier.length = 32)
    (hsig : p.signature.length = 64) :
    (packetBytes p).length = sizeofDataPacket := by
  simp [packetBytes, sizeofDataPacket, hc, ht, hh, hs, hts, hn, hsig]

/-- The first sizeof - 64 bytes of the struct image are exactly the fields
preceding the signature, whatever the signature bytes are. -/
theorem packetBytes_take_preSig (p : DataPacket)
    (hc : p.commitment.length = 32) (ht : p.temperature.length = 4)
    (hh : p.humidity.length = 4) (hs : p.soilMoisture.length = 4)
    (hts : p.timestamp.length = 4) (hn : p.nullifier.length = 32) :
    (packetBytes p).take (sizeofDataPacket - 64) =
      p.commitment ++ p.temperature ++ p.humidity ++ p.soilMoisture ++
        p.timestamp ++ p.nullifier := by
  unfold packetBytes
  exact List.take_left' (by simp [sizeofDataPacket, hc, ht, hh, hs, hts, hn])

/-- Bytes 48..79 of the struct image are the nullifier field. -/
theorem packetBytes_nullifier_slice (p : DataPacket)
    (hc : p.commitment.length = 32) (ht : p.temperature.length = 4)
    (hh : p.humidity.length = 4) (hs : p.soilMoisture.length = 4)
    (hts : p.timestamp.length = 4) (hn : p.nullifier.length = 32) :
    ((packetBytes p).drop 48).take 32 = p.nullifier := by
  unfold packetBytes
  rw [List.append_assoc]
  rw [List.drop_left' (by simp [hc, ht, hh, hs, hts])]
  exact List.take_left' hn

/-! ### C1 -/

/-- C1 counterexample: the firmware decodes the inbound line
+RCV=1,2,0102,-40,9 to the single payload byte 0x01, not to the two bytes
0x01 0x02 the claim states, because the length field drives the hex loop over
characters (two per byte), so only floor(2/2) = 1 byte is produced. -/
theorem c1_counterexample :
    (loraReceive ("+RCV=1,2,0102,-40,9".toList) 256 0 0).payload ≠ [1, 2] := by
  decide

/-- C1 (amended): the +RCV length field counts hex characters, two per payload
byte, mirroring the AT+SEND convention on the transmit side; the inbound line
+RCV=1,2,0102,-40,9 therefore decodes to the single payload byte 0x01 and
records rssi = -40 and snr = 9 as the last observed signal metadata, whatever
values were held before. -/
theorem c1_receive_hexchar_convention (r s : Int) :
    loraReceive ("+RCV=1,2,0102,-40,9".toList) 256 r s = ⟨[1], -40, 9⟩ := by
  rfl

/-! ### C3 -/

/-- C3 counterexample: the odd-hex-length frame +RCV=1,3,010,-40,9 is not
rejected: the receive call returns two bytes 0x01 0x00 (the trailing lone
character decodes through strtol against the token's NUL terminator), writing
a partial payload instead of the zero bytes the claim states. -/
theorem c3_counterexample :
    (loraReceive ("+RCV=1,3,010,-40,9".toList) 256 0 0).payload = [1, 0] ∧
    (loraReceive ("+RCV=1,3,010,-40,9".toList) 256 0 0).payload ≠ [] := by
  decide

/-- C3 (amended): a frame with the wrong prefix, or one with fewer than three
nonempty comma-separated fields after "+RCV=" (address, length, hex data),
yields zero bytes with the stored signal metadata untouched; but an odd hex
length is not rejected: the length field drives the decode loop, so such
frames surface ceil(len/2) bytes, the last decoded from the lone trailing
character, and missing rssi/snr fields do not suppress the decoded payload. -/
theorem c3_malformed_frames (raw : List Char) (maxLen : Nat) (r s : Int)
    (h : ("+RCV=".toList).isPrefixOf raw = false ∨ (strtokAll (raw.drop 5)).length < 3) :
    loraReceive raw maxLen r s = ⟨[], r, s⟩ := by
  unfold loraReceive
  rcases h with h | h
  · rw [h]; simp
  · rcases htk : strtokAll (raw.drop 5) with _ | ⟨a, _ | ⟨b, _ | ⟨c, rest⟩⟩⟩
    · cases hpre : ("+RCV=".toList).isPrefixOf raw <;> simp
    · cases hpre : ("+RCV=".toList).isPrefixOf raw <;> simp
    · cases hpre : ("+RCV=".toList).isPrefixOf raw <;> simp
    · rw [htk] at h; simp only [List.length_cons] at h; omega

/-- C3 witness: the truncated frame +RCV=1,2 (hex data field missing) yields
zero bytes and leaves the signal metadata unchanged. -/
theorem c3_witness : loraReceive ("+RCV=1,2".toList) 256 0 0 = ⟨[], 0, 0⟩ :=
  c3_malformed_frames _ 256 0 0 (by decide)

/-! ### C2 -/

/-- C2 counterexample: called in the Registered state with every collaborator
succeeding, registerDevice still returns success, stores a fresh blinding
factor, recomputes the commitment, and hands a registration message to the
radio -- there is no already-registered guard in the function. -/
theorem c2_counterexample :
    (registerDevice envAllOk braceStRegistered).1 = true ∧
    (registerDevice envAllOk braceStRegistered).2.2 ≠ [] ∧
    (registerDevice envAllOk braceStRegistered).2.1.blindingFactor ≠
      braceStRegistered.blindingFactor ∧
    (registerDevice envAllOk braceStRegistered).2.1.commitment ≠
      braceStRegistered.commitment := by
  decide

/-- C2 (amended): registerDevice neither consults nor changes the _registered
flag: its result, the messages it hands to the radio, and all its other state
updates are identical whatever the flag holds, and the flag itself is left as
it was; it returns failure only when a collaborator pointer is unset or one of
the blinding-factor, commitment, or transmit steps fails. -/
theorem c2_registerDevice_ignores_flag (env : Env) (st : BraceState) (b : Bool) :
    registerDevice env { st with registered := b } =
      ((registerDevice env st).1,
        { (registerDevice env st).2.1 with registered := b },
        (registerDevice env st).2.2) := by
  obtain ⟨se, lo, reg, comm, bf⟩ := st
  unfold registerDevice computeCommitmentStep
  cases se <;> cases lo
  · rfl
  · rfl
  · rfl
  · rcases env.randomBytes with _ | r
    · rfl
    · dsimp only
      rcases env.devicePk with _ | pk
      · rfl
      · dsimp only
        rcases env.sha256 (commitmentPreimage pk r) with _ | c
        · rfl
        · rfl

/-! ### C7 -/

/-- registerDevice never writes the _registered flag. -/
theorem registerDevice_registered_unchanged (env : Env) (st : BraceState) :
    (registerDevice env st).2.1.registered = st.registered := by
  obtain ⟨se, lo, reg, comm, bf⟩ := st
  unfold registerDevice computeCommitmentStep
  cases se <;> cases lo
  · rfl
  · rfl
  · rfl
  · rcases env.randomBytes with _ | r
    · rfl
    · dsimp only
      rcases env.devicePk with _ | pk
      · rfl
      · dsimp only
        rcases env.sha256 (commitmentPreimage pk r) with _ | c
        · rfl
        · rfl

/-- attemptRegistration never changes the BRACE _registered flag. -/
theorem attemptRegistration_registered_unchanged (env : Env) (st : SysState) :
    (attemptRegistration env st).1.brace.registered = st.brace.registered := by
  unfold attemptRegistration
  dsimp only
  rcases hok : (registerDevice env st.brace).1 with _ | _
  · simp only [Bool.false_eq_true, if_false]
    exact registerDevice_registered_unchanged env st.brace
  · simp only [if_true]
    rcases hgc : getCommitment (registerDevice env st.brace).2.1 with _ | c
    · exact registerDevice_registered_unchanged env st.brace
    · exact registerDevice_registered_unchanged env st.brace

/-- The control-message dispatcher never touches the BRACE client state. -/
theorem dispatchControl_brace_unchanged (payload : List Nat) (st : SysState) :
    (dispatchControl payload st).brace = st.brace := by
  unfold dispatchControl
  rcases payload with _ | ⟨t, rest⟩
  · rfl
  · by_cases h1 : t = 1
    · simp [h1]
    · by_cases h2 : t = 2
      · simp [h1, h2]
        rcases rest with _ | ⟨b1, _ | ⟨b2, _ | ⟨b3, _ | ⟨b4, rest2⟩⟩⟩⟩ <;> rfl
      · simp [h1, h2]

/-- The inbound handler never touches the BRACE client state. -/
theorem handleIncoming_brace_unchanged (raw : List Char) (st : SysState) :
    (handleIncomingMessage raw st).brace = st.brace := by
  unfold handleIncomingMessage
  rw [dispatchControl_brace_unchanged]

/-- A loop iteration never changes the BRACE _registered flag. -/
theorem loopIter_registered_unchanged (inp : IterInput) (st : SysState) :
    (loopIter inp st).1.brace.registered = st.brace.registered := by
  obtain ⟨env, inbound, due, sd, now, garbage⟩ := inp
  unfold loopIter
  dsimp only
  rcases inbound with _ | raw
  · cases due
    · rfl
    · rw [if_pos rfl]
      rcases hreg : st.deviceRegistered with _ | _
      · rw [if_neg Bool.false_ne_true]
        exact attemptRegistration_registered_unchanged env st
      · rw [if_pos rfl]
        rcases hct : collectAndTransmitData env st.commitmentBytes st.currentEpoch
            sd now garbage with _ | payload
        · rfl
        · rfl
  · have hb : (handleIncomingMessage raw st).brace = st.brace :=
      handleIncoming_brace_unchanged raw st
    cases due
    · exact congrArg BraceState.registered hb
    · rw [if_pos rfl]
      rcases hreg : (handleIncomingMessage raw st).deviceRegistered with _ | _
      · rw [if_neg Bool.false_ne_true]
        rw [attemptRegistration_registered_unchanged]
        exact congrArg BraceState.registered hb
      · rw [if_pos rfl]
        rcases hct : collectAndTransmitData env (handleIncomingMessage raw st).commitmentBytes
            (handleIncomingMessage raw st).currentEpoch sd now garbage with _ | payload
        · exact congrArg BraceState.registered hb
        · exact congrArg BraceState.registered hb

/-- C7: the BRACE _registered flag becomes true only inside begin(), when a
stored blinding factor is recovered; registerDevice, getCommitment and the
loop's inbound dispatch (which sets only main's separate deviceRegistered
flag) never set it. A device whose begin() recovered nothing therefore keeps
isRegistered() false and getCommitment() failing for the whole boot, however
many loop iterations run and whatever frames (acks included) arrive. -/
theorem c7_registered_only_in_begin (env0 : Env) (inputs : List IterInput)
    (h : (braceBegin env0).registered = false) :
    (inputs.foldl (fun s i => (loopIter i s).1) (sysInit env0)).brace.registered = false ∧
    getCommitment (inputs.foldl (fun s i => (loopIter i s).1) (sysInit env0)).brace = none := by
  have key : ∀ (l : List IterInput) (s : SysState), s.brace.registered = false →
      (l.foldl (fun s i => (loopIter i s).1) s).brace.registered = false := by
    intro l
    induction l with
    | nil => intro s hs; exact hs
    | cons i t ih =>
      intro s hs
      simp only [List.foldl_cons]
      exact ih _ ((loopIter_registered_unchanged i s).trans hs)
  have h0 : (sysInit env0).brace.registered = false := h
  have hreg := key inputs (sysInit env0) h0
  refine ⟨hreg, ?_⟩
  unfold getCommitment
  rw [hreg]
  rfl

/-- C7 witness: with no stored blinding factor, one loop iteration that
receives a registration ack and runs its due cycle still leaves the BRACE
flag false and getCommitment failing. -/
theorem c7_witness :
    ([iterAck].foldl (fun s i => (loopIter i s).1) (sysInit envAllOk)).brace.registered = false ∧
    getCommitment ([iterAck].foldl (fun s i => (loopIter i s).1) (sysInit envAllOk)).brace =
      none :=
  c7_registered_only_in_begin envAllOk [iterAck] (by decide)

/-! ### C4 -/

set_option maxRecDepth 8192 in
/-- C4 counterexample: a successfully built and transmitted telemetry packet
is 144 bytes (32+4+4+4+4+32+64), not the 168 bytes the claim states. -/
theorem c4_counterexample :
    (collectAndTransmitData envAllOk (List.replicate 32 1) 5 sdZero
        (List.replicate 4 0) (List.replicate 64 6)).map List.length = some 144 ∧
    (144 : Nat) ≠ 168 := by
  decide

/-- C4 (amended): the DataPacket built and transmitted in a telemetry cycle is
exactly sizeof(DataPacket) = 144 bytes, laid out with no padding in the fixed
field order commitment (32), temperature (4), humidity (4), soilMoisture (4),
timestamp (4), nullifier (32), signature (64), and the whole struct image is
handed as-is to the radio as the payload, within the 240-byte transmit
limit. -/
theorem c4_packet_layout (env : Env) (comm : List Nat) (e : Nat) (sd : SensorBytes)
    (now garbage payload : List Nat)
    (hc : comm.length = 32) (ht : sd.temp.length = 4) (hh : sd.hum.length = 4)
    (hs : sd.soil.length = 4) (hn : now.length = 4)
    (hmac : ∀ o, env.mac (nullifierMessage e) = some o → o.length = 32)
    (hsig : ∀ m o, env.signBytes m = some o → o.length = 64)
    (hp : collectAndTransmitData env comm e sd now garbage = some payload) :
    payload.length = sizeofDataPacket ∧ sizeofDataPacket = 144 ∧
    (∃ nul sig, computeNullifier env e = some nul ∧
      payload = comm ++ sd.temp ++ sd.hum ++ sd.soil ++ now ++ nul ++ sig) ∧
    transmitAccepts payload = true := by
  unfold collectAndTransmitData at hp
  rcases hnul : computeNullifier env e with _ | nul
  · rw [hnul] at hp; cases hp
  · rw [hnul] at hp
    dsimp only at hp
    rcases hsg : env.signBytes ((packetBytes
        ⟨comm, sd.temp, sd.hum, sd.soil, now, nul, garbage⟩).take
          (sizeofDataPacket - 64)) with _ | sig
    · rw [hsg] at hp; cases hp
    · rw [hsg] at hp
      have hpl : payload = comm ++ sd.temp ++ sd.hum ++ sd.soil ++ now ++ nul ++ sig := by
        have := hp
        simp only [Option.some.injEq] at this
        rw [← this]
        rfl
      have hnl : nul.length = 32 := hmac nul hnul
      have hsl : sig.length = 64 := hsig _ sig hsg
      constructor
      · rw [hpl]
        simp [sizeofDataPacket, hc, ht, hh, hs, hn, hnl, hsl]
      constructor
      · rfl
      constructor
      · exact ⟨nul, sig, rfl, hpl⟩
      · have : payload.length = 144 := by
          rw [hpl]; simp [hc, ht, hh, hs, hn, hnl, hsl]
        unfold transmitAccepts
        rw [this]
        rfl

/-- C4 witness: the concrete run behind payloadW satisfies the amended
layout. -/
theorem c4_witness :
    payloadW.length = sizeofDataPacket ∧ sizeofDataPacket = 144 ∧
    (∃ nul sig, computeNullifier envAllOk 5 = some nul ∧
      payloadW = List.replicate 32 1 ++ sdZero.temp ++ sdZero.hum ++ sdZero.soil ++
        List.replicate 4 0 ++ nul ++ sig) ∧
    transmitAccepts payloadW = true :=
  c4_packet_layout envAllOk (List.replicate 32 1) 5 sdZero (List.replicate 4 0)
    (List.replicate 64 6) payloadW (by decide) (by decide) (by decide) (by decide) (by decide)
    (fun o h => by
      simp only [envAllOk, Option.some.injEq] at h
      rw [← h]
      rfl)
    (fun m o h => by
      simp only [envAllOk, Option.some.injEq] at h
      rw [← h]
      rfl)
    (by decide)

/-! ### C5 -/

/-- C5: for a 64-byte public key and 32-byte blinding factor the computed
commitment is SHA-256 of the 128-byte preimage formed by the ASCII domain tag
"msingi:commitment:v1" zero-padded to 32 bytes, then the key, then the factor;
and the computation is deterministic: recomputing from an equal blinding
factor under the same collaborator outcomes yields identical bytes. -/
theorem c5_commitment (env : Env) (st : BraceState) (pk d : List Nat)
    (hpk : env.devicePk = some pk) (hlpk : pk.length = 64)
    (hbf : st.blindingFactor.length = 32)
    (hsha : env.sha256 (commitmentPreimage pk st.blindingFactor) = some d) :
    computeCommitmentStep env st = some { st with commitment := d } ∧
    commitmentPreimage pk st.blindingFactor =
      (bytesOfString commitmentDomain ++ List.replicate 12 0) ++ pk ++ st.blindingFactor ∧
    (commitmentPreimage pk st.blindingFactor).length = 128 ∧
    (∀ st2 : BraceState, st2.blindingFactor = st.blindingFactor →
      (computeCommitmentStep env st2).map BraceState.commitment =
        (computeCommitmentStep env st).map BraceState.commitment) := by
  refine ⟨?_, ?_, ?_, ?_⟩
  · unfold computeCommitmentStep
    rw [hpk]
    dsimp only
    rw [hsha]
  · unfold commitmentPreimage
    rw [show domainPad32 commitmentDomain =
      bytesOfString commitmentDomain ++ List.replicate 12 0 from by decide]
  · have h32 : (domainPad32 commitmentDomain).length = 32 := by decide
    simp [commitmentPreimage, h32, hlpk, hbf]
  · intro st2 h2
    unfold computeCommitmentStep
    rw [hpk, h2]
    dsimp only
    rw [hsha]
    rfl

/-- C5 witness: concrete collaborator outcomes instantiating the commitment
preimage equation. -/
theorem c5_witness :
    computeCommitmentStep envAllOk braceStRegistered =
      some { braceStRegistered with commitment := List.replicate 32 7 } ∧
    commitmentPreimage (List.replicate 64 2) braceStRegistered.blindingFactor =
      (bytesOfString commitmentDomain ++ List.replicate 12 0) ++ List.replicate 64 2 ++
        braceStRegistered.blindingFactor ∧
    (commitmentPreimage (List.replicate 64 2) braceStRegistered.blindingFactor).length = 128 ∧
    (∀ st2 : BraceState, st2.blindingFactor = braceStRegistered.blindingFactor →
      (computeCommitmentStep envAllOk st2).map BraceState.commitment =
        (computeCommitmentStep envAllOk braceStRegistered).map BraceState.commitment) :=
  c5_commitment envAllOk braceStRegistered (List.replicate 64 2) (List.replicate 32 7)
    (by decide) (by decide) (by decide) (by decide)

/-! ### C6 -/

/-- C6: for every epoch the nullifier placed in a transmitted telemetry packet
is the MAC, under the device key, of the NULLIFIER_DOMAIN tag followed by the
epoch encoded as 4 big-endian bytes: computeNullifier equals that MAC, and
bytes 48..79 of the transmitted payload are exactly its output. -/
theorem c6_nullifier (env : Env) (comm : List Nat) (e : Nat) (sd : SensorBytes)
    (now garbage payload nul : List Nat)
    (hc : comm.length = 32) (ht : sd.temp.length = 4) (hh : sd.hum.length = 4)
    (hs : sd.soil.length = 4) (hn : now.length = 4)
    (hmac : env.mac (bytesOfString nullifierDomain ++ be32 e) = some nul)
    (hnl : nul.length = 32)
    (hp : collectAndTransmitData env comm e sd now garbage = some payload) :
    computeNullifier env e = some nul ∧ (payload.drop 48).take 32 = nul := by
  have hcn : computeNullifier env e = some nul := by
    unfold computeNullifier
    rw [nullifierMessage_eq_be32]
    exact hmac
  refine ⟨hcn, ?_⟩
  unfold collectAndTransmitData at hp
  rw [hcn] at hp
  dsimp only at hp
  rcases hsg : env.signBytes ((packetBytes
      ⟨comm, sd.temp, sd.hum, sd.soil, now, nul, garbage⟩).take
        (sizeofDataPacket - 64)) with _ | sig
  · rw [hsg] at hp; cases hp
  · rw [hsg] at hp
    simp only [Option.some.injEq] at hp
    rw [← hp]
    exact packetBytes_nullifier_slice ⟨comm, sd.temp, sd.hum, sd.soil, now, nul, sig⟩
      hc ht hh hs hn hnl

/-- C6 witness: the concrete epoch-5 run places the MAC of the domain tag
followed by 00 00 00 05 at bytes 48..79 of the payload. -/
theorem c6_witness :
    computeNullifier envAllOk 5 = some (List.replicate 32 3) ∧
    (payloadW.drop 48).take 32 = List.replicate 32 3 :=
  c6_nullifier envAllOk (List.replicate 32 1) 5 sdZero (List.replicate 4 0)
    (List.replicate 64 6) payloadW (List.replicate 32 3)
    (by decide) (by decide) (by decide) (by decide) (by decide) (by rfl) (by decide) (by decide)

/-! ### C8 -/

/-- C8: a signing failure aborts the telemetry cycle before any transmit call;
and the region signed on success is exactly the byte image of all fields
preceding the signature (commitment through nullifier), i.e. the first
sizeof(DataPacket) - 64 bytes of the struct image -- the signature field's
(uninitialized) bytes contribute nothing to it. -/
theorem c8_signing (env : Env) (comm : List Nat) (e : Nat) (sd : SensorBytes)
    (now garbage : List Nat)
    (hc : comm.length = 32) (ht : sd.temp.length = 4) (hh : sd.hum.length = 4)
    (hs : sd.soil.length = 4) (hn : now.length = 4) :
    (∀ nul, computeNullifier env e = some nul →
      env.signBytes ((packetBytes ⟨comm, sd.temp, sd.hum, sd.soil, now, nul, garbage⟩).take
        (sizeofDataPacket - 64)) = none →
      collectAndTransmitData env comm e sd now garbage = none) ∧
    (∀ nul, nul.length = 32 →
      (packetBytes ⟨comm, sd.temp, sd.hum, sd.soil, now, nul, garbage⟩).take
          (sizeofDataPacket - 64) =
        comm ++ sd.temp ++ sd.hum ++ sd.soil ++ now ++ nul ∧
      (comm ++ sd.temp ++ sd.hum ++ sd.soil ++ now ++ nul).length =
        sizeofDataPacket - 64) := by
  constructor
  · intro nul hnul hsg
    unfold collectAndTransmitData
    rw [hnul]
    dsimp only
    rw [hsg]
  · intro nul hnl
    constructor
    · exact packetBytes_take_preSig ⟨comm, sd.temp, sd.hum, sd.soil, now, nul, garbage⟩
        hc ht hh hs hn hnl
    · simp [sizeofDataPacket, hc, ht, hh, hs, hn, hnl]

/-- C8 witness: with a failing signer the concrete cycle transmits nothing,
and the concrete signed region is the 80 pre-signature bytes. -/
theorem c8_witness :
    collectAndTransmitData envSignFail (List.replicate 32 1) 5 sdZero
      (List.replicate 4 0) (List.replicate 64 6) = none ∧
    (packetBytes ⟨List.replicate 32 1, sdZero.temp, sdZero.hum, sdZero.soil,
        List.replicate 4 0, List.replicate 32 3, List.replicate 64 6⟩).take
      (sizeofDataPacket - 64) =
      List.replicate 32 1 ++ sdZero.temp ++ sdZero.hum ++ sdZero.soil ++
        List.replicate 4 0 ++ List.replicate 32 3 :=
  ⟨(c8_signing envSignFail (List.replicate 32 1) 5 sdZero (List.replicate 4 0)
      (List.replicate 64 6) (by decide) (by decide) (by decide) (by decide) (by decide)).1
      (List.replicate 32 3) (by rfl) (by rfl),
    ((c8_signing envSignFail (List.replicate 32 1) 5 sdZero (List.replicate 4 0)
      (List.replicate 64 6) (by decide) (by decide) (by decide) (by decide) (by decide)).2
      (List.replicate 32 3) (by decide)).1⟩

/-! ### C9 -/

/-- C9: a 0x02 control message with at least four bytes after the discriminant
replaces the held epoch with their 32-bit big-endian value, unconditionally --
lower values included, since no comparison is made; a shorter 0x02 message
leaves the epoch unchanged, and so does every payload not starting with
0x02. -/
theorem c9_epoch_update (st : SysState) :
    (∀ b1 b2 b3 b4 rest, b1 < 256 → b2 < 256 → b3 < 256 → b4 < 256 →
      (dispatchControl (2 :: b1 :: b2 :: b3 :: b4 :: rest) st).currentEpoch =
        b1 * 2 ^ 24 + b2 * 2 ^ 16 + b3 * 2 ^ 8 + b4) ∧
    (∀ rest : List Nat, rest.length < 4 →
      (dispatchControl (2 :: rest) st).currentEpoch = st.currentEpoch) ∧
    (∀ t rest, t ≠ 2 → (dispatchControl (t :: rest) st).currentEpoch = st.currentEpoch) ∧
    (dispatchControl [] st).currentEpoch = st.currentEpoch := by
  refine ⟨?_, ?_, ?_, rfl⟩
  · intro b1 b2 b3 b4 rest h1 h2 h3 h4
    unfold dispatchControl
    norm_num
    exact epochOfBytes_eq_be b1 b2 b3 b4 h1 h2 h3 h4
  · intro rest hlen
    unfold dispatchControl
    norm_num
    rcases rest with _ | ⟨b1, _ | ⟨b2, _ | ⟨b3, _ | ⟨b4, rest2⟩⟩⟩⟩
    · rfl
    · rfl
    · rfl
    · rfl
    · simp only [List.length_cons] at hlen; omega
  · intro t rest ht
    unfold dispatchControl
    by_cases h1 : t = 1
    · simp [h1]
    · simp [h1, ht]

/-- C9 witness: an epoch update carrying the value 5 overwrites a held epoch
of 100 -- the lower value is accepted as-is. -/
theorem c9_witness :
    (dispatchControl (2 :: 0 :: 0 :: 0 :: 5 :: []) stEpoch100).currentEpoch =
      0 * 2 ^ 24 + 0 * 2 ^ 16 + 0 * 2 ^ 8 + 5 :=
  (c9_epoch_update stEpoch100).1 0 0 0 5 [] (by decide) (by decide) (by decide) (by decide)

/-! ### C10 -/

/-- C10: in every loop iteration a pending inbound frame is handled before the
scheduled-cycle decision: when the pending frame decodes to a registration ack
(first payload byte 0x01), a device that entered the iteration unregistered
and whose schedule is due takes the telemetry branch, not enrollment -- the
decision reads the deviceRegistered flag the inbound handler just set. -/
theorem c10_inbound_before_cycle (inp : IterInput) (st : SysState) (raw : List Char)
    (_hreg : st.deviceRegistered = false)
    (hin : inp.inbound = some raw) (hdue : inp.due = true)
    (hack : (loraReceive raw 256 st.rssi st.snr).payload.head? = some 1) :
    (loopIter inp st).2.1 = some BranchTaken.telemetry := by
  obtain ⟨env, inbound, due, sd, now, garbage⟩ := inp
  simp only at hin hdue
  subst hin hdue
  unfold loopIter
  dsimp only
  have h1 : (handleIncomingMessage raw st).deviceRegistered = true := by
    unfold handleIncomingMessage dispatchControl
    dsimp only
    rcases hpl : (loraReceive raw 256 st.rssi st.snr).payload with _ | ⟨t, rest⟩
    · rw [hpl] at hack; cases hack
    · rw [hpl] at hack
      simp only [List.head?_cons, Option.some.injEq] at hack
      rw [hack]
      rfl
  rw [if_pos rfl, h1, if_pos rfl]
  rcases hct : collectAndTransmitData env (handleIncomingMessage raw st).commitmentBytes
      (handleIncomingMessage raw st).currentEpoch sd now garbage with _ | payload
  · rfl
  · rfl

/-- C10 witness: an unregistered device with epoch 100, a pending ack frame
and a due schedule runs the telemetry branch in that same iteration. -/
theorem c10_witness :
    (loopIter iterAck stEpoch100).2.1 = some BranchTaken.telemetry :=
  c10_inbound_before_cycle iterAck stEpoch100 ("+RCV=1,2,01,-40,9".toList)
    (by decide) (by rfl) (by rfl) (by decide)

end Msingi
